import Mathlib

/-!
Verification of the ns-3 example script `src/core/examples/sample-rng-plot.py`.

The script is a linear pipeline: import libraries (with a guarded import of
the `ns` bindings), parse one optional boolean flag, construct a
`NormalRandomVariable`, set its `Mean` and `Variance` attributes, draw 10000
samples with `GetValue`, and hand the samples to matplotlib
(`hist`, `title`, `text`, `axis`, `grid`, `show`).

We embed it as a function from an environment — outcomes of the five module
imports, and an oracle giving the value returned by the k-th `GetValue`
call — and the argument list, to a run outcome: an unhandled exception, or a
process exit carrying the exit code, the stderr diagnostic (if any), and the
ordered trace of calls `main` made into the external libraries.
Sample values are modelled as rationals; the statistical behaviour of the
generator and the rendering done by matplotlib are outside the script and
stay opaque.
-/

namespace SampleRngPlot

/-- A Python exception as far as the script can distinguish one:
a `ModuleNotFoundError` (carrying the missing module's name) or any other
exception, described opaquely. -/
inductive PyExn where
  | moduleNotFound (modName : String)
  | other (desc : String)
deriving DecidableEq

/-- One call made by `main` into an external library, in the script's own
vocabulary.  `createNormalRV` is `ns.CreateObject[ns.NormalRandomVariable]()`;
`setAttribute` is `rng.SetAttribute(name, ns.DoubleValue(v))`; `getValue`
records one `rng.GetValue()` call together with the value it returned; the
remaining constructors are the `plt.hist`, `plt.title`, `plt.text`,
`plt.axis`, `plt.grid` and `plt.show` calls (`showFig` stands for `plt.show`,
whose name is a Lean keyword). -/
inductive Event where
  | createNormalRV
  | setAttribute (name : String) (value : ℚ)
  | getValue (result : ℚ)
  | hist (xs : List ℚ) (bins : ℕ) (density : Bool) (facecolor : String) (alpha : ℚ)
  | title (s : String)
  | text (x y : ℚ) (s : String)
  | axis (xmin xmax ymin ymax : ℚ)
  | grid (b : Bool)
  | showFig (block : Bool)
deriving DecidableEq

/-- The environment a run executes in: for each of the five imports at the
top of the file (`argparse`, `sys`, `matplotlib.pyplot`, `numpy`, and the
guarded `from ns import ns`, in source order) whether it succeeds (`none`) or
raises (`some e`), and the oracle giving the value the k-th `rng.GetValue()`
call returns. -/
structure Env where
  argparseImport : Option PyExn
  sysImport : Option PyExn
  matplotlibImport : Option PyExn
  numpyImport : Option PyExn
  nsImport : Option PyExn
  getValue : ℕ → ℚ

/-- The diagnostic the import guard prints: the argument of the
`raise SystemExit(...)` on lines 24-28, with Python's implicit concatenation
of the three adjacent string literals performed. -/
def nsMessage : String :=
  "Error: ns3 Python module not found;" ++
  " Python bindings may not be enabled" ++
  " or your PYTHONPATH might not be properly configured"

/-- Result of `parser.parse_args(sys.argv[1:])` for the parser built in
`main`: `argparse.ArgumentParser("sample-rng-plot")` with the single option
`--not-blocking` (`store_true`, default `False`). -/
inductive ParseResult where
  | help
  | usageError
  | ok (notBlocking : Bool)
deriving DecidableEq

/-- Does a token resolve to argparse's automatically added help option
(`add_help` defaults on): the short flag `-h` exactly, or — per argparse's
default `allow_abbrev=True` — an unambiguous prefix abbreviation of
`--help`.  Any prefix longer than the bare `--` is unambiguous here, since
`--help` and `--not-blocking` share no prefix beyond `--`. -/
def resolvesHelp (t : String) : Bool :=
  t == "-h" || (t.length > 2 && t.data.isPrefixOf "--help".data)

/-- Does a token resolve to the `--not-blocking` option: the flag itself or
an unambiguous prefix abbreviation of it (any prefix longer than the bare
`--`). -/
def resolvesNotBlocking (t : String) : Bool :=
  t.length > 2 && t.data.isPrefixOf "--not-blocking".data

/-- Does the parser recognize the token as one of its options? -/
def recognizedToken (t : String) : Bool :=
  resolvesHelp t || resolvesNotBlocking t

/-- The tokens before the first `--` separator: the region argparse scans
for options. -/
def optTokens (argv : List String) : List String :=
  argv.takeWhile (fun t => t != "--")

/-- The tokens after the first `--` separator, which argparse treats as
positional arguments; this parser declares no positionals, so any such
token is unrecognized. -/
def posTokens (argv : List String) : List String :=
  (argv.dropWhile (fun t => t != "--")).drop 1

/-- Modelled behaviour of the CPython `argparse` library for this parser:
a help option anywhere in the option region prints usage and exits with
status 0 (argparse reports unrecognized tokens only after the full scan, so
help wins even next to garbage); otherwise, if every option-region token
resolves to an option and no positional token remains after a `--`
separator, parsing succeeds and `args.not_blocking` records whether some
token resolved to `--not-blocking`; otherwise the standard usage error,
`parser.error`, exits with status 2. -/
def parseArgs (argv : List String) : ParseResult :=
  if (optTokens argv).any resolvesHelp then ParseResult.help
  else if (optTokens argv).all recognizedToken && (posTokens argv).isEmpty then
    ParseResult.ok ((optTokens argv).any resolvesNotBlocking)
  else ParseResult.usageError

/-- The sample list built on line 44: `[rng.GetValue() for t in range(10000)]`,
with the k-th call's return value given by the oracle. -/
def samples (env : Env) : List ℚ :=
  (List.range 10000).map env.getValue

/-- The calls of lines 39-41: construct the `NormalRandomVariable` and set
`Mean` to 100.0 and `Variance` to 225.0, in that order. -/
def configEvents : List Event :=
  [Event.createNormalRV,
   Event.setAttribute "Mean" 100,
   Event.setAttribute "Variance" 225]

/-- The matplotlib calls of lines 57-63, in source order:
`plt.hist(x, 50, density=True, facecolor="g", alpha=0.75)`,
`plt.title("ns-3 histogram")`, `plt.text(60, 0.025, r"$\mu=100,\ \sigma=15$")`,
`plt.axis([40, 160, 0, 0.03])`, `plt.grid(True)`, and
`plt.show(block=not args.not_blocking)`. -/
def plotEvents (env : Env) (notBlocking : Bool) : List Event :=
  [Event.hist (samples env) 50 true "g" (0.75 : ℚ),
   Event.title "ns-3 histogram",
   Event.text 60 (0.025 : ℚ) "$\\mu=100,\\ \\sigma=15$",
   Event.axis 40 160 0 (0.03 : ℚ),
   Event.grid true,
   Event.showFig (!notBlocking)]

/-- The full trace of external calls a successful `main` run makes, in source
order: configuration, then the 10000 `GetValue` calls of the list
comprehension, then the plotting calls. -/
def mainEvents (env : Env) (notBlocking : Bool) : List Event :=
  configEvents ++ (samples env).map Event.getValue ++ plotEvents env notBlocking

/-- Outcome of one process run: a process exit with its status code, the
diagnostic printed to stderr (if any), and the trace of external calls made
by `main`; or an exception propagating unhandled out of the script. -/
inductive RunOutcome where
  | exit (code : ℕ) (msg : Option String) (events : List Event)
  | unhandled (e : PyExn)
deriving DecidableEq

/-- The body of `main` (lines 31-63) after all imports succeeded: parse the
arguments, and on success perform the pipeline and return normally (process
exit status 0).  `--help` exits with status 0 before `main`'s pipeline runs;
a usage error exits with status 2.  (The usage/help text argparse prints is
not modelled; the `msg` field carries only the import guard's diagnostic.) -/
def runMain (env : Env) (argv : List String) : RunOutcome :=
  match parseArgs argv with
  | ParseResult.help => RunOutcome.exit 0 none []
  | ParseResult.usageError => RunOutcome.exit 2 none []
  | ParseResult.ok nb => RunOutcome.exit 0 none (mainEvents env nb)

/-- One run of the script, from module load: the imports execute in source
order (`argparse`, `sys`, `matplotlib.pyplot`, `numpy`, then the guarded
`from ns import ns`); an exception from any of the first four propagates
unhandled; for the `ns` import, a `ModuleNotFoundError` is caught by the
guard and converted into `raise SystemExit(<diagnostic>)` — in Python a
`SystemExit` with a string argument prints the string to stderr and exits
with status 1 — while any other exception propagates unhandled; if all
imports succeed, `main()` runs. -/
def runScript : Env → List String → RunOutcome
  | ⟨some e, _, _, _, _, _⟩, _ => RunOutcome.unhandled e
  | ⟨none, some e, _, _, _, _⟩, _ => RunOutcome.unhandled e
  | ⟨none, none, some e, _, _, _⟩, _ => RunOutcome.unhandled e
  | ⟨none, none, none, some e, _, _⟩, _ => RunOutcome.unhandled e
  | ⟨none, none, none, none, some (PyExn.moduleNotFound _), _⟩, _ =>
      RunOutcome.exit 1 (some nsMessage) []
  | ⟨none, none, none, none, some (PyExn.other d), _⟩, _ =>
      RunOutcome.unhandled (PyExn.other d)
  | ⟨none, none, none, none, none, gv⟩, argv =>
      runMain ⟨none, none, none, none, none, gv⟩ argv

/-- Is this event a `GetValue` call? -/
def Event.isGetValue : Event → Bool
  | Event.getValue _ => true
  | _ => false

/-- The value a `GetValue` call returned, `none` for every other event. -/
def Event.gvResult : Event → Option ℚ
  | Event.getValue r => some r
  | _ => none

/-- Is this event a `SetAttribute` call? -/
def Event.isSetAttr : Event → Bool
  | Event.setAttribute _ _ => true
  | _ => false

/-- The sample list a `plt.hist` call receives, `none` for every other
event. -/
def Event.histSamples : Event → Option (List ℚ)
  | Event.hist xs _ _ _ _ => some xs
  | _ => none

/-- An environment in which every import succeeds and every `GetValue` call
returns 0; used to instantiate theorems at concrete inputs. -/
def env0 : Env :=
  ⟨none, none, none, none, none, fun _ => 0⟩

/-- An environment in which every import succeeds and every `GetValue` call
returns the constant 100.0 (the stubbed generator of the end-to-end
scenario). -/
def constEnv : Env :=
  ⟨none, none, none, none, none, fun _ => 100⟩

/-! ### Helper lemmas about the embedded script -/

lemma runScript_all_ok (gv : ℕ → ℚ) (argv : List String) :
    runScript ⟨none, none, none, none, none, gv⟩ argv =
      runMain ⟨none, none, none, none, none, gv⟩ argv := rfl

lemma parseArgs_ok_inv {argv : List String} {nb : Bool}
    (h : parseArgs argv = ParseResult.ok nb) :
    nb = (optTokens argv).any resolvesNotBlocking := by
  unfold parseArgs at h
  split at h
  · exact absurd h (by simp)
  · split at h
    · cases h; rfl
    · exact absurd h (by simp)

lemma mem_opts_or_pos {argv : List String} {tok : String}
    (hmem : tok ∈ argv) (hsep : tok ≠ "--") :
    tok ∈ optTokens argv ∨ tok ∈ posTokens argv := by
  unfold optTokens posTokens
  induction argv with
  | nil => simp at hmem
  | cons x xs ih =>
    by_cases hx2 : x = "--"
    · subst hx2
      simp only [List.takeWhile_cons, List.dropWhile_cons, bne_self_eq_false,
        Bool.false_eq_true, if_false, List.drop_succ_cons, List.drop_zero]
      rcases List.mem_cons.mp hmem with rfl | hx
      · exact absurd rfl hsep
      · exact Or.inr hx
    · have hb : (x != "--") = true := by simp [hx2]
      simp only [List.takeWhile_cons, List.dropWhile_cons, hb, if_true]
      rcases List.mem_cons.mp hmem with rfl | hx
      · exact Or.inl (List.mem_cons_self ..)
      · rcases ih hx with h | h
        · exact Or.inl (List.mem_cons_of_mem x h)
        · exact Or.inr h

lemma runScript_exit_inv {env : Env} {argv : List String} {code : ℕ}
    {msg : Option String} {es : List Event}
    (h : runScript env argv = RunOutcome.exit code msg es) :
    es = [] ∨ ∃ nb, parseArgs argv = ParseResult.ok nb ∧ code = 0 ∧
      msg = none ∧ es = mainEvents env nb := by
  rcases env with ⟨a, s, m, n, nsi, gv⟩
  rcases a with _ | e
  case some => exact absurd h (by simp [runScript])
  rcases s with _ | e
  case some => exact absurd h (by simp [runScript])
  rcases m with _ | e
  case some => exact absurd h (by simp [runScript])
  rcases n with _ | e
  case some => exact absurd h (by simp [runScript])
  rcases nsi with _ | e
  case some =>
    rcases e with mn | d
    · rw [show runScript ⟨none, none, none, none,
        some (PyExn.moduleNotFound mn), gv⟩ argv =
          RunOutcome.exit 1 (some nsMessage) [] from rfl] at h
      cases h
      exact Or.inl rfl
    · exact absurd h (by simp [runScript])
  rw [runScript_all_ok] at h
  unfold runMain at h
  rcases hp : parseArgs argv with _ | _ | nb <;> rw [hp] at h
  · cases h; exact Or.inl rfl
  · cases h; exact Or.inl rfl
  · cases h; exact Or.inr ⟨nb, rfl, rfl, rfl, rfl⟩

lemma mem_getValue_map {env : Env} {e : Event}
    (h : e ∈ (samples env).map Event.getValue) : ∃ r, e = Event.getValue r := by
  rcases List.mem_map.mp h with ⟨a, _, rfl⟩
  exact ⟨a, rfl⟩

lemma samples_length (env : Env) : (samples env).length = 10000 := by
  simp [samples]

lemma showFig_mem_mainEvents {env : Env} {nb b : Bool} :
    Event.showFig b ∈ mainEvents env nb ↔ b = !nb := by
  constructor
  · intro h
    rcases List.mem_append.mp h with h | h
    · rcases List.mem_append.mp h with h | h
      · simp [configEvents] at h
      · rcases mem_getValue_map h with ⟨r, hr⟩
        exact absurd hr (by simp)
    · simp [plotEvents] at h
      exact h
  · intro h
    subst h
    exact List.mem_append.mpr (Or.inr (by simp [plotEvents]))

lemma getValue_mem_mainEvents_iff {env : Env} {nb : Bool} {r : ℚ} :
    Event.getValue r ∈ mainEvents env nb ↔ r ∈ samples env := by
  constructor
  · intro h
    rcases List.mem_append.mp h with h | h
    · rcases List.mem_append.mp h with h | h
      · simp [configEvents] at h
      · rcases List.mem_map.mp h with ⟨a, ha, hr⟩
        cases hr
        exact ha
    · simp [plotEvents] at h
  · intro h
    exact List.mem_append.mpr (Or.inl (List.mem_append.mpr
      (Or.inr (List.mem_map.mpr ⟨r, h, rfl⟩))))

lemma filter_getValue_map (env : Env) :
    ((samples env).map Event.getValue).filter Event.isGetValue
      = (samples env).map Event.getValue := by
  apply List.filter_eq_self.mpr
  intro e he
  rcases mem_getValue_map he with ⟨r, rfl⟩
  rfl

lemma isGetValue_false_of_mem_plotEvents {env : Env} {nb : Bool} {e : Event}
    (h : e ∈ plotEvents env nb) : Event.isGetValue e = false := by
  simp [plotEvents] at h
  rcases h with h | h | h | h | h | h <;> subst h <;> rfl

lemma isSetAttr_false_of_mem_rest {env : Env} {nb : Bool} {e : Event}
    (h : e ∈ (samples env).map Event.getValue ++ plotEvents env nb) :
    Event.isSetAttr e = false := by
  rcases List.mem_append.mp h with h | h
  · rcases mem_getValue_map h with ⟨r, rfl⟩
    rfl
  · simp [plotEvents] at h
    rcases h with h | h | h | h | h | h <;> subst h <;> rfl

lemma filterMap_gvResult_pre (env : Env) :
    (configEvents ++ (samples env).map Event.getValue).filterMap Event.gvResult
      = samples env := by
  rw [List.filterMap_append]
  have h1 : configEvents.filterMap Event.gvResult = [] := rfl
  have h2 : ((samples env).map Event.getValue).filterMap Event.gvResult
      = samples env := by
    rw [List.filterMap_map]
    have : (Event.gvResult ∘ Event.getValue) = some := rfl
    rw [this, List.filterMap_some]
  rw [h1, h2, List.nil_append]

lemma filterMap_gvResult_mainEvents (env : Env) (nb : Bool) :
    (mainEvents env nb).filterMap Event.gvResult = samples env := by
  unfold mainEvents
  rw [List.filterMap_append, List.filterMap_append]
  have h1 : configEvents.filterMap Event.gvResult = [] := rfl
  have h2 : ((samples env).map Event.getValue).filterMap Event.gvResult
      = samples env := by
    rw [List.filterMap_map]
    have : (Event.gvResult ∘ Event.getValue) = some := rfl
    rw [this, List.filterMap_some]
  have h3 : (plotEvents env nb).filterMap Event.gvResult = [] := rfl
  rw [h1, h2, h3, List.nil_append, List.append_nil]

lemma filterMap_histSamples_mainEvents (env : Env) (nb : Bool) :
    (mainEvents env nb).filterMap Event.histSamples = [samples env] := by
  unfold mainEvents
  rw [List.filterMap_append, List.filterMap_append]
  have h1 : configEvents.filterMap Event.histSamples = [] := rfl
  have h2 : ((samples env).map Event.getValue).filterMap Event.histSamples
      = [] := by
    apply List.filterMap_eq_nil_iff.mpr
    intro e he
    rcases mem_getValue_map he with ⟨r, rfl⟩
    rfl
  have h3 : (plotEvents env nb).filterMap Event.histSamples = [samples env] := rfl
  rw [h1, h2, h3, List.nil_append, List.nil_append]

/-- An environment in which the `ns` import raises `ModuleNotFoundError` and
every other import succeeds. -/
def envNoNs : Env :=
  ⟨none, none, none, none, some (PyExn.moduleNotFound "ns"), fun _ => 0⟩

/-- An environment in which the matplotlib import raises
`ModuleNotFoundError` and the imports before it succeed. -/
def envNoMpl : Env :=
  ⟨none, none, some (PyExn.moduleNotFound "matplotlib"), none, none, fun _ => 0⟩

/-! ### The claims -/

/-- C1 counterexample: with the argument list `["--not-b"]`, argparse's
default prefix abbreviation resolves the token to `--not-blocking`, so the
run reaches the display step and `plt.show` is called with blocking
disabled although the flag `--not-blocking` itself is absent from the
argument list — against the claim, which ties blocking to the literal
flag's absence. -/
theorem C1_counterexample :
    runScript env0 ["--not-b"] =
      RunOutcome.exit 0 none (mainEvents env0 true) ∧
    Event.showFig false ∈ mainEvents env0 true ∧
    ("--not-blocking" : String) ∉ (["--not-b"] : List String) :=
  ⟨rfl, showFig_mem_mainEvents.mpr rfl, by decide⟩

/-- C1 (amended): in every run that reaches the display step, `plt.show` is
called with blocking disabled exactly when the argument list contains a
token the parser resolves to the `--not-blocking` option — the flag itself
or an unambiguous prefix abbreviation of it, before any `--` separator —
and with blocking enabled otherwise; the flag takes no argument, so token
presence alone decides, and it defaults to off. -/
theorem C1_amended_show_blocking (env : Env) (argv : List String) (code : ℕ)
    (msg : Option String) (es : List Event)
    (hrun : runScript env argv = RunOutcome.exit code msg es)
    (hreach : ∃ b, Event.showFig b ∈ es) :
    Event.showFig (!((optTokens argv).any resolvesNotBlocking)) ∈ es ∧
    ∀ b, Event.showFig b ∈ es →
      b = !((optTokens argv).any resolvesNotBlocking) := by
  rcases runScript_exit_inv hrun with rfl | ⟨nb, hp, _, _, rfl⟩
  · rcases hreach with ⟨b, hb⟩
    simp at hb
  · have hnb := parseArgs_ok_inv hp
    subst hnb
    exact ⟨showFig_mem_mainEvents.mpr rfl,
      fun b hb => showFig_mem_mainEvents.mp hb⟩

/-- Witness for the amended C1: concrete run with every import succeeding
and argument list `["--not-blocking"]`. -/
theorem C1_amended_show_blocking_witness :
    Event.showFig (!((optTokens ["--not-blocking"]).any resolvesNotBlocking)) ∈
        mainEvents env0 true ∧
    ∀ b, Event.showFig b ∈ mainEvents env0 true →
      b = !((optTokens ["--not-blocking"]).any resolvesNotBlocking) :=
  C1_amended_show_blocking env0 ["--not-blocking"] 0 none
    (mainEvents env0 true) rfl ⟨false, showFig_mem_mainEvents.mpr rfl⟩

/-- C2: in every run that reaches the sampling step, `GetValue` is called
exactly 10000 times and the results are collected in call order, with no
filtering, transformation or early termination, into the sample sequence of
length 10000; the plotting block comes after all of them and its first call
is the histogram call on exactly that sequence. -/
theorem C2_sampling (env : Env) (argv : List String) (code : ℕ)
    (msg : Option String) (es : List Event)
    (hrun : runScript env argv = RunOutcome.exit code msg es)
    (hreach : ∃ r, Event.getValue r ∈ es) :
    ∃ pre nb, es = pre ++ plotEvents env nb ∧
      (pre.filter Event.isGetValue).length = 10000 ∧
      (∀ e ∈ plotEvents env nb, Event.isGetValue e = false) ∧
      pre.filterMap Event.gvResult = samples env ∧
      (samples env).length = 10000 ∧
      (plotEvents env nb).head? =
        some (Event.hist (samples env) 50 true "g" (0.75 : ℚ)) := by
  rcases runScript_exit_inv hrun with rfl | ⟨nb, hp, _, _, rfl⟩
  · rcases hreach with ⟨r, hr⟩
    simp at hr
  · refine ⟨configEvents ++ (samples env).map Event.getValue, nb,
      by rw [mainEvents, List.append_assoc], ?_, ?_, ?_, samples_length env, rfl⟩
    · rw [List.filter_append]
      have h1 : configEvents.filter Event.isGetValue = [] := rfl
      rw [h1, filter_getValue_map, List.nil_append, List.length_map,
        samples_length]
    · exact fun e he => isGetValue_false_of_mem_plotEvents he
    · exact filterMap_gvResult_pre env

/-- Witness for C2: concrete run with every import succeeding, no arguments,
and the zero oracle. -/
theorem C2_sampling_witness :
    ∃ pre nb, mainEvents env0 false = pre ++ plotEvents env0 nb ∧
      (pre.filter Event.isGetValue).length = 10000 ∧
      (∀ e ∈ plotEvents env0 nb, Event.isGetValue e = false) ∧
      pre.filterMap Event.gvResult = samples env0 ∧
      (samples env0).length = 10000 ∧
      (plotEvents env0 nb).head? =
        some (Event.hist (samples env0) 50 true "g" (0.75 : ℚ)) :=
  C2_sampling env0 [] 0 none (mainEvents env0 false) rfl
    ⟨0, getValue_mem_mainEvents_iff.mpr
      (List.mem_map.mpr ⟨0, List.mem_range.mpr (by norm_num), rfl⟩)⟩

/-- C3: if the `ns` module cannot be imported (`ModuleNotFoundError`), the
run terminates with the non-zero exit status 1 and a diagnostic containing
the substring "not found", and the trace is empty: the generator is never
constructed, no sample is drawn, and no plotting call is made. -/
theorem C3_import_guard (env : Env) (argv : List String) (m : String)
    (h1 : env.argparseImport = none) (h2 : env.sysImport = none)
    (h3 : env.matplotlibImport = none) (h4 : env.numpyImport = none)
    (h5 : env.nsImport = some (PyExn.moduleNotFound m)) :
    runScript env argv = RunOutcome.exit 1 (some nsMessage) [] ∧
    (1 : ℕ) ≠ 0 ∧
    ∃ pre post, nsMessage = pre ++ "not found" ++ post := by
  rcases env with ⟨a, s, mm, n, nsi, gv⟩
  obtain rfl : a = none := h1
  obtain rfl : s = none := h2
  obtain rfl : mm = none := h3
  obtain rfl : n = none := h4
  obtain rfl : nsi = some (PyExn.moduleNotFound m) := h5
  refine ⟨rfl, by decide, "Error: ns3 Python module ",
    "; Python bindings may not be enabled"
      ++ " or your PYTHONPATH might not be properly configured", ?_⟩
  decide

/-- Witness for C3: concrete environment in which the `ns` import raises
`ModuleNotFoundError` and every other import succeeds, with an empty
argument list. -/
theorem C3_import_guard_witness :
    runScript envNoNs [] = RunOutcome.exit 1 (some nsMessage) [] ∧
    (1 : ℕ) ≠ 0 ∧
    ∃ pre post, nsMessage = pre ++ "not found" ++ post :=
  C3_import_guard envNoNs [] "ns" rfl rfl rfl rfl rfl

/-- C4: in every run that reaches the sampling step, the generator is
constructed as a normal random variable, the attributes `Mean` = 100.0 and
`Variance` = 225.0 are each set exactly once, and both assignments (and no
other `SetAttribute` call) happen before the first `GetValue` call. -/
theorem C4_configuration (env : Env) (argv : List String) (code : ℕ)
    (msg : Option String) (es : List Event)
    (hrun : runScript env argv = RunOutcome.exit code msg es)
    (hreach : ∃ r, Event.getValue r ∈ es) :
    ∃ pre post, es = pre ++ post ∧
      Event.createNormalRV ∈ pre ∧
      pre.count (Event.setAttribute "Mean" 100) = 1 ∧
      pre.count (Event.setAttribute "Variance" 225) = 1 ∧
      (∀ e ∈ pre, Event.isGetValue e = false) ∧
      (∀ e ∈ post, Event.isSetAttr e = false) ∧
      (es.filter Event.isSetAttr).length = 2 := by
  rcases runScript_exit_inv hrun with rfl | ⟨nb, hp, _, _, rfl⟩
  · rcases hreach with ⟨r, hr⟩
    simp at hr
  · refine ⟨configEvents, (samples env).map Event.getValue ++ plotEvents env nb,
      by rw [mainEvents, List.append_assoc], by decide, by decide, by decide,
      ?_, ?_, ?_⟩
    · intro e he
      fin_cases he <;> rfl
    · exact fun e he => isSetAttr_false_of_mem_rest he
    · rw [mainEvents, List.append_assoc, List.filter_append]
      have h1 : configEvents.filter Event.isSetAttr =
          [Event.setAttribute "Mean" 100, Event.setAttribute "Variance" 225] := rfl
      have h2 : ((samples env).map Event.getValue ++
          plotEvents env nb).filter Event.isSetAttr = [] :=
        List.filter_eq_nil_iff.mpr fun e he => by
          rw [isSetAttr_false_of_mem_rest he]
          exact Bool.false_ne_true
      rw [h1, h2, List.append_nil]
      rfl

/-- Witness for C4: concrete run with every import succeeding, no arguments,
and the zero oracle. -/
theorem C4_configuration_witness :
    ∃ pre post, mainEvents env0 false = pre ++ post ∧
      Event.createNormalRV ∈ pre ∧
      pre.count (Event.setAttribute "Mean" 100) = 1 ∧
      pre.count (Event.setAttribute "Variance" 225) = 1 ∧
      (∀ e ∈ pre, Event.isGetValue e = false) ∧
      (∀ e ∈ post, Event.isSetAttr e = false) ∧
      ((mainEvents env0 false).filter Event.isSetAttr).length = 2 :=
  C4_configuration env0 [] 0 none (mainEvents env0 false) rfl
    ⟨0, getValue_mem_mainEvents_iff.mpr
      (List.mem_map.mpr ⟨0, List.mem_range.mpr (by norm_num), rfl⟩)⟩

/-- C5 counterexample: `["--help"]` is an argument list containing a flag
other than `--not-blocking`, yet the run does not fail with a usage error
and a non-zero exit: argparse's automatically added help option makes it
exit with status 0 (the generator is still never constructed). -/
theorem C5_counterexample :
    ("--help" : String) ≠ "--not-blocking" ∧
    parseArgs ["--help"] = ParseResult.help ∧
    runScript env0 ["--help"] = RunOutcome.exit 0 none [] :=
  ⟨by decide, rfl, rfl⟩

/-- C5 (amended): for every argument list that contains a token the parser
does not recognize — neither `--not-blocking` nor an unambiguous prefix
abbreviation of it, nor argparse's automatically added `-h`/`--help` (or a
prefix abbreviation of `--help`), nor the bare end-of-options separator
`--` — and whose option region contains no token resolving to the help
option, argument parsing fails via argparse's standard usage-error
behaviour with the non-zero exit status 2, and the trace is empty: the
generator is never constructed and no sampling or plotting occurs. -/
theorem C5_amended_unrecognized_flag (env : Env) (argv : List String)
    (tok : String)
    (h1 : env.argparseImport = none) (h2 : env.sysImport = none)
    (h3 : env.matplotlibImport = none) (h4 : env.numpyImport = none)
    (h5 : env.nsImport = none)
    (hmem : tok ∈ argv) (hrec : recognizedToken tok = false)
    (hsep : tok ≠ "--")
    (hnohelp : ∀ t ∈ optTokens argv, resolvesHelp t = false) :
    runScript env argv = RunOutcome.exit 2 none [] := by
  rcases env with ⟨a, s, m, n, nsi, gv⟩
  obtain rfl : a = none := h1
  obtain rfl : s = none := h2
  obtain rfl : m = none := h3
  obtain rfl : n = none := h4
  obtain rfl : nsi = none := h5
  rw [runScript_all_ok]
  have hany : (optTokens argv).any resolvesHelp = false :=
    List.any_eq_false.mpr fun t ht => by simp [hnohelp t ht]
  have hcond : ((optTokens argv).all recognizedToken &&
      (posTokens argv).isEmpty) = false := by
    rcases mem_opts_or_pos hmem hsep with h | h
    · have hf : (optTokens argv).all recognizedToken = false :=
        List.all_eq_false.mpr ⟨tok, h, by simp [hrec]⟩
      rw [hf, Bool.false_and]
    · have hf : (posTokens argv).isEmpty = false := by
        cases hpt : posTokens argv with
        | nil => rw [hpt] at h; simp at h
        | cons y ys => rfl
      rw [hf, Bool.and_false]
  simp [runMain, parseArgs, hany, hcond]

/-- Witness for the amended C5: concrete run with every import succeeding
and argument list `["--bogus"]`. -/
theorem C5_amended_unrecognized_flag_witness :
    runScript env0 ["--bogus"] = RunOutcome.exit 2 none [] :=
  C5_amended_unrecognized_flag env0 ["--bogus"] "--bogus" rfl rfl rfl rfl rfl
    (by decide) (by decide) (by decide) (by decide)

/-- C6: run with no arguments against a stubbed generator that returns the
constant 100.0 on every call: the run completes normally, the sample
sequence has length 10000 with every entry equal to 100.0, and the histogram
call is the only one in the trace and receives exactly that sequence,
unmodified, with the script's fixed parameters. -/
theorem C6_constant_stub :
    runScript constEnv [] =
      RunOutcome.exit 0 none (mainEvents constEnv false) ∧
    (samples constEnv).length = 10000 ∧
    samples constEnv = List.replicate 10000 (100 : ℚ) ∧
    (mainEvents constEnv false).filterMap Event.histSamples =
      [List.replicate 10000 (100 : ℚ)] ∧
    Event.hist (List.replicate 10000 (100 : ℚ)) 50 true "g" (0.75 : ℚ) ∈
      mainEvents constEnv false := by
  have hs : samples constEnv = List.replicate 10000 (100 : ℚ) := by
    have := List.map_const' (List.range 10000) (100 : ℚ)
    simp only [List.length_range] at this
    exact this
  refine ⟨rfl, samples_length constEnv, hs, ?_, ?_⟩
  · rw [filterMap_histSamples_mainEvents, hs]
  · have : Event.hist (samples constEnv) 50 true "g" (0.75 : ℚ) ∈
        mainEvents constEnv false :=
      List.mem_append.mpr (Or.inr (by simp [plotEvents]))
    rwa [hs] at this

/-- C7: in every run that reaches the display step, the trace ends with, in
order: the histogram call over the full sample sequence (the `GetValue`
results in call order, 10000 of them) with 50 bins, probability-density
normalization, color "g" and alpha 0.75; the fixed title "ns-3 histogram";
the fixed annotation text; axis bounds [40,160] on x and [0,0.03] on y; grid
lines enabled; and, last, the display call. -/
theorem C7_visualization (env : Env) (argv : List String) (code : ℕ)
    (msg : Option String) (es : List Event) (b : Bool)
    (hrun : runScript env argv = RunOutcome.exit code msg es)
    (hreach : Event.showFig b ∈ es) :
    List.IsSuffix
      [Event.hist (es.filterMap Event.gvResult) 50 true "g" (0.75 : ℚ),
       Event.title "ns-3 histogram",
       Event.text 60 (0.025 : ℚ) "$\\mu=100,\\ \\sigma=15$",
       Event.axis 40 160 0 (0.03 : ℚ),
       Event.grid true,
       Event.showFig b] es ∧
    (es.filterMap Event.gvResult).length = 10000 := by
  rcases runScript_exit_inv hrun with rfl | ⟨nb, hp, _, _, rfl⟩
  · simp at hreach
  · obtain rfl : b = !nb := showFig_mem_mainEvents.mp hreach
    rw [filterMap_gvResult_mainEvents, samples_length]
    refine ⟨⟨configEvents ++ (samples env).map Event.getValue, ?_⟩, rfl⟩
    have hplot : [Event.hist (samples env) 50 true "g" (0.75 : ℚ),
        Event.title "ns-3 histogram",
        Event.text 60 (0.025 : ℚ) "$\\mu=100,\\ \\sigma=15$",
        Event.axis 40 160 0 (0.03 : ℚ),
        Event.grid true,
        Event.showFig (!nb)] = plotEvents env nb := rfl
    rw [hplot, mainEvents, List.append_assoc]

/-- Witness for C7: concrete run with every import succeeding, no arguments,
and the zero oracle. -/
theorem C7_visualization_witness :
    List.IsSuffix
      [Event.hist ((mainEvents env0 false).filterMap Event.gvResult) 50 true
         "g" (0.75 : ℚ),
       Event.title "ns-3 histogram",
       Event.text 60 (0.025 : ℚ) "$\\mu=100,\\ \\sigma=15$",
       Event.axis 40 160 0 (0.03 : ℚ),
       Event.grid true,
       Event.showFig true] (mainEvents env0 false) ∧
    ((mainEvents env0 false).filterMap Event.gvResult).length = 10000 :=
  C7_visualization env0 [] 0 none (mainEvents env0 false) true rfl
    (showFig_mem_mainEvents.mpr rfl)

/-- C8: on a run where every import succeeds and the arguments parse (and,
as the model assumes, every external call returns normally), the program
completes with exit status 0. -/
theorem C8_exit_zero (env : Env) (argv : List String) (nb : Bool)
    (h1 : env.argparseImport = none) (h2 : env.sysImport = none)
    (h3 : env.matplotlibImport = none) (h4 : env.numpyImport = none)
    (h5 : env.nsImport = none)
    (hp : parseArgs argv = ParseResult.ok nb) :
    runScript env argv = RunOutcome.exit 0 none (mainEvents env nb) := by
  rcases env with ⟨a, s, m, n, nsi, gv⟩
  obtain rfl : a = none := h1
  obtain rfl : s = none := h2
  obtain rfl : m = none := h3
  obtain rfl : n = none := h4
  obtain rfl : nsi = none := h5
  rw [runScript_all_ok]
  unfold runMain
  rw [hp]

/-- Witness for C8: concrete run with every import succeeding and an empty
argument list. -/
theorem C8_exit_zero_witness :
    runScript env0 [] = RunOutcome.exit 0 none (mainEvents env0 false) :=
  C8_exit_zero env0 [] false rfl rfl rfl rfl rfl rfl

/-- C9 (implicit): the import guard converts only a `ModuleNotFoundError`
raised by the `ns` import into the diagnostic termination; any other
exception raised by that import, and any exception of any kind raised while
importing argparse, sys, matplotlib or numpy, propagates unhandled rather
than producing the missing-dependency diagnostic. -/
theorem C9_guard_catches_only_mnf (env : Env) (argv : List String) (e : PyExn)
    (h : env.argparseImport = some e ∨
      (env.argparseImport = none ∧ env.sysImport = some e) ∨
      (env.argparseImport = none ∧ env.sysImport = none ∧
        env.matplotlibImport = some e) ∨
      (env.argparseImport = none ∧ env.sysImport = none ∧
        env.matplotlibImport = none ∧ env.numpyImport = some e) ∨
      (env.argparseImport = none ∧ env.sysImport = none ∧
        env.matplotlibImport = none ∧ env.numpyImport = none ∧
        env.nsImport = some e ∧ ∀ m, e ≠ PyExn.moduleNotFound m)) :
    runScript env argv = RunOutcome.unhandled e := by
  rcases env with ⟨a, s, m, n, nsi, gv⟩
  rcases h with h | ⟨h1, h⟩ | ⟨h1, h2, h⟩ | ⟨h1, h2, h3, h⟩ |
    ⟨h1, h2, h3, h4, h, hmnf⟩
  · obtain rfl : a = some e := h
    rfl
  · obtain rfl : a = none := h1
    obtain rfl : s = some e := h
    rfl
  · obtain rfl : a = none := h1
    obtain rfl : s = none := h2
    obtain rfl : m = some e := h
    rfl
  · obtain rfl : a = none := h1
    obtain rfl : s = none := h2
    obtain rfl : m = none := h3
    obtain rfl : n = some e := h
    rfl
  · obtain rfl : a = none := h1
    obtain rfl : s = none := h2
    obtain rfl : m = none := h3
    obtain rfl : n = none := h4
    obtain rfl : nsi = some e := h
    rcases e with mn | d
    · exact absurd rfl (hmnf mn)
    · rfl

/-- Witness for C9: concrete environment in which the matplotlib import
raises `ModuleNotFoundError` (so even a module-not-found failure of a
library other than ns propagates unhandled instead of producing the
diagnostic). -/
theorem C9_guard_catches_only_mnf_witness :
    runScript envNoMpl ["--bogus"] =
      RunOutcome.unhandled (PyExn.moduleNotFound "matplotlib") :=
  C9_guard_catches_only_mnf envNoMpl ["--bogus"]
    (PyExn.moduleNotFound "matplotlib")
    (Or.inr (Or.inr (Or.inl ⟨rfl, rfl, rfl⟩)))

/-- C10 (implicit): the `ns` import check runs at module load time, before
any argument parsing, so when the simulation library is missing the program
terminates with the missing-dependency diagnostic for every argument list —
malformed ones included — and the usage-error exit path (status 2) is never
reached. -/
theorem C10_guard_before_parsing (env : Env) (argv : List String) (m : String)
    (h1 : env.argparseImport = none) (h2 : env.sysImport = none)
    (h3 : env.matplotlibImport = none) (h4 : env.numpyImport = none)
    (h5 : env.nsImport = some (PyExn.moduleNotFound m)) :
    runScript env argv = RunOutcome.exit 1 (some nsMessage) [] ∧
    ∀ msg2 es2, runScript env argv ≠ RunOutcome.exit 2 msg2 es2 := by
  rcases env with ⟨a, s, mm, n, nsi, gv⟩
  obtain rfl : a = none := h1
  obtain rfl : s = none := h2
  obtain rfl : mm = none := h3
  obtain rfl : n = none := h4
  obtain rfl : nsi = some (PyExn.moduleNotFound m) := h5
  refine ⟨rfl, fun msg2 es2 hne => ?_⟩
  rw [show runScript ⟨none, none, none, none,
      some (PyExn.moduleNotFound m), gv⟩ argv =
        RunOutcome.exit 1 (some nsMessage) [] from rfl] at hne
  simp at hne

/-- Witness for C10: concrete environment in which the `ns` import raises
`ModuleNotFoundError`, with the malformed argument list `["--bogus"]`. -/
theorem C10_guard_before_parsing_witness :
    runScript envNoNs ["--bogus"] = RunOutcome.exit 1 (some nsMessage) [] ∧
    ∀ msg2 es2, runScript envNoNs ["--bogus"] ≠ RunOutcome.exit 2 msg2 es2 :=
  C10_guard_before_parsing envNoNs ["--bogus"] "ns" rfl rfl rfl rfl rfl

end SampleRngPlot
